/-
  Verification of the scoring-dashboard repository (single source file `app.py`).

  The file shallowly embeds the parts of `app.py` that the specification's
  claims are about:
    * `invoke_agent` (payload construction and response parsing),
    * the individual-evaluation tab (sequential rendering under a try/except),
    * the simulation tab (client synthesis, the sequential remote-call loop,
      and the aggregate metrics),
  together with a model of the JSON values exchanged with the remote agent
  runtime and of `json.loads` (an executable recursive-descent JSON parser).

  Python dictionaries are modelled as association lists of string keys,
  JSON numbers as rationals, and exceptions as `Except String`.
-/
import Mathlib

set_option autoImplicit false

/-! ## JSON values

JSON values as exchanged with the remote agent runtime.  Numbers are modelled
as rationals (Python floats and ints both embed), objects as association
lists in insertion order. -/

inductive Json where
  | null : Json
  | bool (b : Bool) : Json
  | num (q : ℚ) : Json
  | str (s : String) : Json
  | arr (elems : List Json) : Json
  | obj (members : List (String × Json)) : Json

namespace Json

/-- First binding of a key in an association list (Python dicts have unique
keys, so taking the first binding is faithful for dict-sourced objects). -/
def alistFind (k : String) : List (String × Json) → Option Json
  | [] => none
  | (k', v) :: t => if k' = k then some v else alistFind k t

/-- Python `d[k]`: key lookup that raises `KeyError` on a missing
key and `TypeError` when the value is not a dict. -/
def getKey (j : Json) (k : String) : Except String Json :=
  match j with
  | .obj kvs =>
    match alistFind k kvs with
    | some v => .ok v
    | none => .error ("KeyError: " ++ k)
  | _ => .error ("TypeError: value is not subscriptable with key " ++ k)

/-- The numeric payload of a JSON number, `none` otherwise. -/
def asNum : Json → Option ℚ
  | .num q => some q
  | _ => none

end Json

/-! ## A model of `json.loads`

An executable recursive-descent parser for JSON, used by `invoke_agent`
(line 36 of `app.py`: `json.loads("".join(content))`).  The mutually
recursive value/array/object parsers take an explicit fuel argument; the
top-level entry point supplies ample fuel for any input it is given.
(Known divergences from CPython's `json.loads`, none of them touched by the
theorems below: leading zeros in numbers and the `NaN`/`Infinity` extensions
are not treated specially, and duplicate object keys keep the first binding
rather than the last.) -/

/-- JSON insignificant whitespace. -/
def isJsonWs (c : Char) : Bool :=
  c == ' ' || c == '\t' || c == '\n' || c == '\r'

def skipWs : List Char → List Char
  | [] => []
  | c :: cs => if isJsonWs c then skipWs cs else c :: cs

/-- Value of a hexadecimal digit. -/
def hexVal (c : Char) : Option ℕ :=
  if c.isDigit then some (c.toNat - 48)
  else if 'a' ≤ c && c ≤ 'f' then some (c.toNat - 87)
  else if 'A' ≤ c && c ≤ 'F' then some (c.toNat - 55)
  else none

/-- Single-character string escapes. -/
def escChar (c : Char) : Option Char :=
  match c with
  | '"' => some '"'
  | '\\' => some '\\'
  | '/' => some '/'
  | 'b' => some (Char.ofNat 8)
  | 'f' => some (Char.ofNat 12)
  | 'n' => some '\n'
  | 'r' => some '\r'
  | 't' => some '\t'
  | _ => none

/-- Body of a JSON string after the opening quote; returns the decoded
string and the input after the closing quote. -/
def parseStringBody : ℕ → List Char → Option (String × List Char)
  | 0, _ => none
  | _ + 1, [] => none
  | _ + 1, '"' :: r => some ("", r)
  | f + 1, '\\' :: r =>
    match r with
    | [] => none
    | 'u' :: h1 :: h2 :: h3 :: h4 :: r2 =>
      match hexVal h1, hexVal h2, hexVal h3, hexVal h4 with
      | some a, some b, some c, some d =>
        match parseStringBody f r2 with
        | some (s, r3) =>
          some (String.mk [Char.ofNat (((a * 16 + b) * 16 + c) * 16 + d)] ++ s, r3)
        | none => none
      | _, _, _, _ => none
    | e :: r2 =>
      match escChar e with
      | some c =>
        match parseStringBody f r2 with
        | some (s, r3) => some (String.mk [c] ++ s, r3)
        | none => none
      | none => none
  | f + 1, c :: r =>
    match parseStringBody f r with
    | some (s, r2) => some (String.mk [c] ++ s, r2)
    | none => none

/-- Numeric value of a digit string. -/
def digitsToNat (ds : List Char) : ℕ :=
  ds.foldl (fun n c => 10 * n + (c.toNat - 48)) 0

/-- A JSON number: optional sign, integer part, optional fraction,
optional exponent. -/
def parseNumber (cs : List Char) : Option (ℚ × List Char) :=
  let sgncs : ℚ × List Char :=
    match cs with
    | '-' :: t => (-1, t)
    | _ => (1, cs)
  match sgncs.2.takeWhile Char.isDigit with
  | [] => none
  | intDs =>
    let cs2 := sgncs.2.drop intDs.length
    let fraccs : Option (ℚ × List Char) :=
      match cs2 with
      | '.' :: t =>
        match t.takeWhile Char.isDigit with
        | [] => none
        | fds => some ((digitsToNat fds : ℚ) / (10 : ℚ) ^ fds.length, t.drop fds.length)
      | _ => some (0, cs2)
    match fraccs with
    | none => none
    | some (fq, cs3) =>
      let base : ℚ := sgncs.1 * ((digitsToNat intDs : ℚ) + fq)
      match cs3 with
      | c :: t =>
        if c == 'e' || c == 'E' then
          let esgn : ℤ × List Char :=
            match t with
            | '+' :: u => (1, u)
            | '-' :: u => (-1, u)
            | _ => (1, t)
          match esgn.2.takeWhile Char.isDigit with
          | [] => none
          | eds => some (base * (10 : ℚ) ^ (esgn.1 * (digitsToNat eds : ℤ)),
                         esgn.2.drop eds.length)
        else some (base, cs3)
      | [] => some (base, [])

mutual

/-- A JSON value, after skipping leading whitespace. -/
def parseValue : ℕ → List Char → Option (Json × List Char)
  | 0, _ => none
  | f + 1, cs =>
    match skipWs cs with
    | 'n' :: 'u' :: 'l' :: 'l' :: r => some (.null, r)
    | 't' :: 'r' :: 'u' :: 'e' :: r => some (.bool true, r)
    | 'f' :: 'a' :: 'l' :: 's' :: 'e' :: r => some (.bool false, r)
    | '"' :: r =>
      match parseStringBody (r.length + 1) r with
      | some (s, r2) => some (.str s, r2)
      | none => none
    | '[' :: r =>
      match parseElems f (skipWs r) with
      | some (vs, r2) => some (.arr vs, r2)
      | none => none
    | '{' :: r =>
      match parseMembers f (skipWs r) with
      | some (kvs, r2) => some (.obj kvs, r2)
      | none => none
    | other => match parseNumber other with
      | some (q, r) => some (.num q, r)
      | none => none

/-- Elements of a JSON array after the opening bracket (no trailing comma). -/
def parseElems : ℕ → List Char → Option (List Json × List Char)
  | 0, _ => none
  | f + 1, cs =>
    match cs with
    | ']' :: r => some ([], r)
    | _ =>
      match parseValue f cs with
      | none => none
      | some (v, r) =>
        match skipWs r with
        | ',' :: r2 =>
          match skipWs r2 with
          | ']' :: _ => none
          | cs3 =>
            match parseElems f cs3 with
            | some (vs, r3) => some (v :: vs, r3)
            | none => none
        | ']' :: r2 => some ([v], r2)
        | _ => none

/-- Members of a JSON object after the opening brace (no trailing comma). -/
def parseMembers : ℕ → List Char → Option (List (String × Json) × List Char)
  | 0, _ => none
  | f + 1, cs =>
    match cs with
    | '}' :: r => some ([], r)
    | '"' :: r =>
      match parseStringBody (r.length + 1) r with
      | none => none
      | some (k, r1) =>
        match skipWs r1 with
        | ':' :: r2 =>
          match parseValue f r2 with
          | none => none
          | some (v, r3) =>
            match skipWs r3 with
            | ',' :: r4 =>
              match skipWs r4 with
              | '"' :: _ =>
                match parseMembers f (skipWs r4) with
                | some (kvs, r5) => some ((k, v) :: kvs, r5)
                | none => none
              | _ => none
            | '}' :: r4 => some ([(k, v)], r4)
            | _ => none
        | _ => none
    | _ => none

end

/-- Model of `json.loads`: parse a complete JSON document; trailing non-whitespace
input is an error ("Extra data"), and so is any unparsable input (including
the empty string). -/
def jsonParse (s : String) : Option Json :=
  match parseValue (2 * s.length + 2) s.toList with
  | some (v, r) => if (skipWs r).isEmpty then some v else none
  | none => none

/-! ## `invoke_agent` (app.py lines 31–36)

`invoke_agent` serializes `{"cliente": cliente, "salud_cartera": salud_cartera}`,
posts it, concatenates the decoded chunks of `response.get("response", [])`
and runs `json.loads` on the result.  We model the chunks as already-decoded
strings. -/

/-- Support for `d.get(k)` and `if k in d`: first binding of `k`, `none` when the
value is not an object or lacks the key. -/
def Json.find (j : Json) (k : String) : Option Json :=
  match j with
  | .obj kvs => Json.alistFind k kvs
  | _ => none

/-- The payload object of line 33:
`{"cliente": cliente, "salud_cartera": salud_cartera}`. -/
def invokePayload (cliente saludCartera : Json) : Json :=
  .obj [("cliente", cliente), ("salud_cartera", saludCartera)]

/-- Response handling of lines 35–36: take the `"response"` stream (default
`[]`), join the chunks, `json.loads` the result.  `none` models the
exception `json.loads` raises on invalid input. -/
def invokeAgentParse (responseStream : Option (List String)) : Option Json :=
  jsonParse (String.join (responseStream.getD []))

/-! ## The applicant and portfolio records (app.py lines 62–63)

The dicts built by the individual-evaluation tab, with numeric fields. -/

structure Cliente where
  edad : ℚ
  ingresos : ℚ
  estabilidad_laboral : ℚ
  ratio_deuda_ingreso : ℚ

structure SaludCartera where
  capital_disponible : ℚ
  tasa_mora_actual : ℚ
  objetivo_mensual_desembolso : ℚ

/-- The dict of line 62. -/
def Cliente.toJson (c : Cliente) : Json :=
  .obj [("edad", .num c.edad), ("ingresos", .num c.ingresos),
        ("estabilidad_laboral", .num c.estabilidad_laboral),
        ("ratio_deuda_ingreso", .num c.ratio_deuda_ingreso)]

/-- The dict of line 63. -/
def SaludCartera.toJson (s : SaludCartera) : Json :=
  .obj [("capital_disponible", .num s.capital_disponible),
        ("tasa_mora_actual", .num s.tasa_mora_actual),
        ("objetivo_mensual_desembolso", .num s.objetivo_mensual_desembolso)]

/-- Read an applicant record back out of its JSON form (inverse used to state
that the payload carries the record unmodified). -/
def Cliente.ofJson (j : Json) : Option Cliente :=
  match (j.find "edad").bind Json.asNum, (j.find "ingresos").bind Json.asNum,
        (j.find "estabilidad_laboral").bind Json.asNum,
        (j.find "ratio_deuda_ingreso").bind Json.asNum with
  | some e, some i, some st, some rd => some ⟨e, i, st, rd⟩
  | _, _, _, _ => none

/-- Read a portfolio record back out of its JSON form. -/
def SaludCartera.ofJson (j : Json) : Option SaludCartera :=
  match (j.find "capital_disponible").bind Json.asNum,
        (j.find "tasa_mora_actual").bind Json.asNum,
        (j.find "objetivo_mensual_desembolso").bind Json.asNum with
  | some c, some t, some o => some ⟨c, t, o⟩
  | _, _, _ => none

/-- The slider value of line 45 is a percentage, divided by 100 before being
stored (`st.slider(...) / 100`). -/
def tasaMoraOf (sliderPct : ℚ) : ℚ := sliderPct / 100

/-! ## The individual-evaluation tab (app.py lines 61–86)

The body of the `try:` block renders widgets one after the other; the first
exception aborts the rest of the block and the `except` arm shows
`st.error(f"Error: {str(e)}")`.  We model each rendered widget as an `Event`
and each statement of the block as a step that either contributes events or
raises. -/

inductive Event where
  | metric (label : String) (value : Json)
  | decisionText (color : String) (value : Json)
  | subheader (title : String)
  | write (value : Json)
  | info (value : Json)
  | error (msg : String)
  | warning (msg : String)

/-- Line 74: `color = "green" if decision == "APROBADO" else "red"`.
Python `==` against a string is only true for an equal string. -/
def decisionColor (d : Json) : String :=
  match d with
  | .str s => if s = "APROBADO" then "green" else "red"
  | _ => "red"

/-- Line 71: `st.metric("Score ML", f"{resultado['score_ml']:.3f}")`.
The format spec `:.3f` accepts numbers (and bools, which format as ints)
and raises on any other value. -/
def stepScoreML (r : Json) : Except String (List Event) :=
  match r.getKey "score_ml" with
  | .error m => .error m
  | .ok v =>
    match v with
    | .num q => .ok [.metric "Score ML" (.num q)]
    | .bool b => .ok [.metric "Score ML" (.num (if b then 1 else 0))]
    | _ => .error "ValueError: unknown format code f"

/-- Lines 73–75: extract `resultado["decision"]["decision"]` and render it
colored. -/
def stepDecisionLabel (r : Json) : Except String (List Event) :=
  match r.getKey "decision" with
  | .error m => .error m
  | .ok dj =>
    match dj.getKey "decision" with
    | .error m => .error m
    | .ok dd => .ok [.decisionText (decisionColor dd) dd]

/-- Line 77: `st.metric("Score Final", resultado["decision"].get("score_final", "N/A"))`.
`.get` never raises; indexing `resultado["decision"]` may, and `.get` on a
non-dict raises `AttributeError`. -/
def stepScoreFinal (r : Json) : Except String (List Event) :=
  match r.getKey "decision" with
  | .error m => .error m
  | .ok dj =>
    match dj with
    | .obj kvs =>
      .ok [.metric "Score Final" ((Json.alistFind "score_final" kvs).getD (.str "N/A"))]
    | _ => .error "AttributeError: no attribute get"

/-- Line 79: `st.subheader("Justificación")` cannot raise. -/
def stepSubheader (_ : Json) : Except String (List Event) :=
  .ok [.subheader "Justificación"]

/-- Line 80: `st.write(resultado["decision"]["justificacion"])`. -/
def stepJustificacion (r : Json) : Except String (List Event) :=
  match r.getKey "decision" with
  | .error m => .error m
  | .ok dj =>
    match dj.getKey "justificacion" with
    | .error m => .error m
    | .ok j => .ok [.write j]

/-- Lines 82–83: `if "recomendaciones" in resultado["decision"]: st.info(...)`.
Membership on a non-container raises `TypeError` (the string-membership
corner of `in` is not modelled). -/
def stepRecomendaciones (r : Json) : Except String (List Event) :=
  match r.getKey "decision" with
  | .error m => .error m
  | .ok dj =>
    match dj with
    | .obj kvs =>
      match Json.alistFind "recomendaciones" kvs with
      | some v => .ok [.info v]
      | none => .ok []
    | _ => .error "TypeError: argument is not a container"

/-- Run the statements of a `try:` block in order: events of completed
statements stay rendered; the first exception replaces the rest of the block
with the single `st.error` message of the `except` arm. -/
def runRender : List (Json → Except String (List Event)) → Json → List Event
  | [], _ => []
  | f :: fs, r =>
    match f r with
    | .ok es => es ++ runRender fs r
    | .error m => [.error ("Error: " ++ m)]

/-- The statements of lines 69–83, in source order. -/
def tab1Steps : List (Json → Except String (List Event)) :=
  [stepScoreML, stepDecisionLabel, stepScoreFinal, stepSubheader,
   stepJustificacion, stepRecomendaciones]

/-- Rendering of a successfully parsed response. -/
def renderResultado (r : Json) : List Event :=
  runRender tab1Steps r

/-- The whole guarded block of lines 65–86: a failed remote call renders only
the error message; a successful call renders the response fields with the
same `except` arm around them. -/
def tab1Run (call : Except String Json) : List Event :=
  match call with
  | .error m => [.error ("Error: " ++ m)]
  | .ok r => renderResultado r

def Event.isErr : Event → Bool
  | .error _ => true
  | _ => false

def errCount (es : List Event) : ℕ := (es.filter Event.isErr).length

def noErr (es : List Event) : Bool := es.all (fun e => !e.isErr)

/-! ## The simulation tab (app.py lines 109–163)

Client synthesis uses `numpy.random` after `np.random.seed(42)`.  The
`numpy` samplers live outside this repository; they are modelled by their
documented reductions to raw pseudo-random draws: `normal(μ, σ)` is
`μ + σ·g` for a standard-normal draw `g`, `lognormal(μ, σ)` is
`exp(μ + σ·g)`, `uniform(a, b)` is `a + (b − a)·u` for a unit draw
`u ∈ [0, 1)`, and `beta(a, b)` is `X / (X + Y)` for nonnegative gamma draws
`X`, `Y`.  The draws themselves are an abstract deterministic state machine
threaded through the loop, exactly as `numpy`'s global generator is. -/

structure ClienteSim where
  edad : ℚ
  ingresos : ℚ
  estabilidad_laboral : ℚ
  ratio_deuda_ingreso : ℚ

/-- The raw pseudo-random source: deterministic draws threading a state.
`gauss` is a standard-normal draw, `unitDraw` a uniform draw in `[0, 1)`,
`gammaDraw a` a nonnegative `Gamma(a)` draw.  `lognormal mu sd` is kept as a
primitive draw (its value is `exp` of a normal draw, hence positive — a
documented contract used as a hypothesis where needed). -/
structure RNG (σ : Type) where
  gauss : σ → ℚ × σ
  unitDraw : σ → ℚ × σ
  gammaDraw : ℚ → σ → ℚ × σ
  lognormal : ℚ → ℚ → σ → ℚ × σ

variable {σ : Type}

def RNG.normal (rng : RNG σ) (mu sd : ℚ) (s : σ) : ℚ × σ :=
  let g := rng.gauss s
  (mu + sd * g.1, g.2)

def RNG.uniform (rng : RNG σ) (a b : ℚ) (s : σ) : ℚ × σ :=
  let u := rng.unitDraw s
  (a + (b - a) * u.1, u.2)

def RNG.beta (rng : RNG σ) (a b : ℚ) (s : σ) : ℚ × σ :=
  let x := rng.gammaDraw a s
  let y := rng.gammaDraw b x.2
  (x.1 / (x.1 + y.1), y.2)

/-- Model of `np.clip`: `np.clip(x, lo, hi) = min(hi, max(lo, x))`. -/
def npClip (x lo hi : ℚ) : ℚ := min hi (max lo x)

/-- One synthesized applicant (lines 122–127):
`edad = clip(normal(35, 12), 18, 70)`, `ingresos = lognormal(10, 0.5)`,
`estabilidad_laboral = uniform(0, 10)`, `ratio_deuda_ingreso = beta(2, 5)`. -/
def genCliente (rng : RNG σ) (s : σ) : ClienteSim × σ :=
  let a := rng.normal 35 12 s
  let ing := rng.lognormal 10 (1 / 2) a.2
  let est := rng.uniform 0 10 ing.2
  let rd := rng.beta 2 5 est.2
  (⟨npClip a.1 18 70, ing.1, est.1, rd.1⟩, rd.2)

/-- The synthesized applicants of one simulation run, in loop order. -/
def genClientes (rng : RNG σ) : σ → ℕ → List ClienteSim
  | _, 0 => []
  | s, n + 1 =>
    let c := genCliente rng s
    c.1 :: genClientes rng c.2 n

/-- Line 117 seeds the global generator with the constant 42. -/
def seedConst : ℕ := 42

/-- The button handler of lines 116–127 as a function of the generator state
it finds (`priorState`): it reseeds with 42 and synthesizes `n` applicants. -/
def simPress (rng : RNG σ) (seedState : ℕ → σ) (_priorState : σ) (n : ℕ) :
    List ClienteSim :=
  genClientes rng (seedState seedConst) n

/-! ## The simulation loop (app.py lines 118–146)

Each iteration invokes the agent once, extracts
`resultado["score_ml"]` and `resultado["decision"]["decision"]` into a row
dict, catches any exception as a warning naming the client, and advances the
progress bar.  The remote call for item `i` is an oracle
`agent : ℕ → Except String Json`. -/

structure Row where
  id : ℕ
  edad : ℚ
  ingresos : ℚ
  score_ml : Json
  decision : Json

/-- The row dict of lines 136–142 (raises on missing keys). -/
def buildRow (i : ℕ) (c : ClienteSim) (r : Json) : Except String Row :=
  match r.getKey "score_ml" with
  | .error m => .error m
  | .ok s =>
    match r.getKey "decision" with
    | .error m => .error m
    | .ok dj =>
      match dj.getKey "decision" with
      | .error m => .error m
      | .ok dd => .ok ⟨i + 1, c.edad, c.ingresos, s, dd⟩

/-- The whole `try:` body for item `i`: remote call, then row extraction. -/
def itemOutcome (agent : ℕ → Except String Json) (cs : ℕ → ClienteSim)
    (i : ℕ) : Except String Row :=
  match agent i with
  | .error m => .error m
  | .ok r => buildRow i (cs i) r

/-- Line 144: `st.warning(f"Error en cliente {i+1}: {e}")`. -/
def warnMsg (k : ℕ) (m : String) : String :=
  "Error en cliente " ++ toString k ++ ": " ++ m

structure SimResult where
  rows : List Row
  warnings : List String
  progress : List ℚ
  calls : List ℕ

/-- The loop of lines 121–146 over items `0 .. n-1` (`den` is the progress
denominator `n_clientes`; `calls` records the one remote call of each
iteration by client number `i+1`). -/
def runSimLoop (agent : ℕ → Except String Json) (cs : ℕ → ClienteSim)
    (den : ℕ) : ℕ → SimResult
  | 0 => ⟨[], [], [], []⟩
  | n + 1 =>
    let p := runSimLoop agent cs den n
    match itemOutcome agent cs n with
    | .ok row =>
      ⟨p.rows ++ [row], p.warnings,
       p.progress ++ [((n : ℚ) + 1) / (den : ℚ)], p.calls ++ [n + 1]⟩
    | .error m =>
      ⟨p.rows, p.warnings ++ [warnMsg (n + 1) m],
       p.progress ++ [((n : ℚ) + 1) / (den : ℚ)], p.calls ++ [n + 1]⟩

/-- One press of the simulation button with `n_clientes = n`. -/
def simulate (agent : ℕ → Except String Json) (cs : ℕ → ClienteSim)
    (n : ℕ) : SimResult :=
  runSimLoop agent cs n n

/-! ## The aggregate block (app.py lines 148–163) -/

/-- Evaluation of `df["decision"] == "APROBADO"` on one row. -/
def rowApproved (row : Row) : Bool :=
  match row.decision with
  | .str s => s == "APROBADO"
  | _ => false

/-- The numeric scores of the rows; `none` when some `score_ml` is not a
number (pandas' `.mean()` has no numeric column to average then). -/
def scoreNums : List Row → Option (List ℚ)
  | [] => some []
  | row :: t =>
    match row.score_ml.asNum, scoreNums t with
    | some q, some qs => some (q :: qs)
    | _, _ => none

structure Agg where
  totalEvaluados : ℕ
  aprobados : ℕ
  pctAprobados : ℚ
  scorePromedio : Option ℚ

/-- Lines 148–163: the aggregate block runs only when `resultados` is
nonempty; `aprobados = len(df[df["decision"] == "APROBADO"])`, the displayed
percentage is `aprobados/len(df)*100`, and the average score is
`df["score_ml"].mean()`. -/
def aggregates (rows : List Row) : Option Agg :=
  match rows with
  | [] => none
  | _ :: _ =>
    some { totalEvaluados := rows.length,
           aprobados := (rows.filter rowApproved).length,
           pctAprobados := ((rows.filter rowApproved).length : ℚ) / (rows.length : ℚ) * 100,
           scorePromedio := (scoreNums rows).map (fun qs => qs.sum / (rows.length : ℚ)) }

/-! ## Bounds predicates and witness fixtures -/

/-- The applicant bounds of the data model (spec section 3): age in 18–80,
non-negative income and job stability, debt-to-income ratio in 0–1. -/
def ClienteBounds (c : Cliente) : Prop :=
  18 ≤ c.edad ∧ c.edad ≤ 80 ∧ 0 ≤ c.ingresos ∧ 0 ≤ c.estabilidad_laboral ∧
    0 ≤ c.ratio_deuda_ingreso ∧ c.ratio_deuda_ingreso ≤ 1

/-- The same bounds for a synthesized applicant. -/
def ClienteSimBounds (c : ClienteSim) : Prop :=
  18 ≤ c.edad ∧ c.edad ≤ 80 ∧ 0 ≤ c.ingresos ∧ 0 ≤ c.estabilidad_laboral ∧
    0 ≤ c.ratio_deuda_ingreso ∧ c.ratio_deuda_ingreso ≤ 1

/-- The portfolio bounds of the data model: non-negative capital and target,
default rate a fraction in `[0, 0.2]`. -/
def SaludBounds (s : SaludCartera) : Prop :=
  0 ≤ s.capital_disponible ∧ 0 ≤ s.tasa_mora_actual ∧
    s.tasa_mora_actual ≤ 1 / 5 ∧ 0 ≤ s.objetivo_mensual_desembolso

/-- Convert `Except` to `Option`, forgetting the error. -/
def exceptToOption {ε α : Type} : Except ε α → Option α
  | .ok a => some a
  | .error _ => none

/-- A concrete raw pseudo-random source used to instantiate theorems with
hypotheses at a specific input. -/
def rngW : RNG Unit :=
  ⟨fun _ => (0, ()), fun _ => (0, ()), fun _ _ => (1, ()), fun _ _ _ => (1, ())⟩

/-- A concrete remote-agent oracle that always fails. -/
def agentW : ℕ → Except String Json := fun _ => .error "ConnectionError"

/-- A concrete applicant synthesizer. -/
def csW : ℕ → ClienteSim := fun _ => ⟨18, 1, 0, 0⟩

/-- Two concrete accumulated rows, one approved and one rejected. -/
def rowsW : List Row :=
  [⟨1, 18, 1, .num (7 / 10), .str "APROBADO"⟩,
   ⟨2, 20, 2, .num (3 / 10), .str "RECHAZADO"⟩]

/-! ## Theorems for the claims -/

/-- C10: if the remote response object lacks the `"response"` key or its
stream yields no chunks, `invoke_agent` attempts to parse the empty string as
JSON and therefore raises (modelled as `none`) rather than returning a
default; it returns normally exactly when the concatenation of the decoded
chunks is valid JSON. -/
theorem invoke_response_requires_valid_json :
    invokeAgentParse none = none ∧
    invokeAgentParse (some []) = none ∧
    jsonParse "" = none ∧
    ∀ chunks : List String,
      invokeAgentParse (some chunks) = jsonParse (String.join chunks) :=
  ⟨rfl, rfl, rfl, fun _ => rfl⟩

/-- C9: the decision label of the individual tab is rendered green exactly
when the returned decision value is the string `"APROBADO"` (case-sensitive),
and red for every other value. -/
theorem decision_color_iff (d : Json) :
    (decisionColor d = "green" ↔ d = Json.str "APROBADO") ∧
    (decisionColor d = "red" ↔ d ≠ Json.str "APROBADO") := by
  cases d with
  | str s =>
    by_cases h : s = "APROBADO"
    · subst h; simp [decisionColor]
    · simp [decisionColor, h]
  | null => simp [decisionColor]
  | bool b => simp [decisionColor]
  | num q => simp [decisionColor]
  | arr xs => simp [decisionColor]
  | obj kvs => simp [decisionColor]

/-- C8: the simulation seeds the generator with the constant 42 on every
button press, so the synthesized applicant sequence does not depend on the
generator state the press finds, and is the same function of `n` on every
run. -/
theorem sim_seed_determinism (rng : RNG σ) (seedState : ℕ → σ)
    (s1 s2 : σ) (n : ℕ) :
    simPress rng seedState s1 n = simPress rng seedState s2 n ∧
    simPress rng seedState s1 n = genClientes rng (seedState 42) n :=
  ⟨rfl, rfl⟩

/-- C1: `invoke_agent` sends exactly the JSON serialization of
`{"cliente": <applicant record>, "salud_cartera": <portfolio record>}`, with
the two records passed through unmodified: the payload object holds the two
records under those two keys and nothing else, and each record can be read
back out field by field. -/
theorem invoke_payload_carries_records (c : Cliente) (s : SaludCartera) :
    invokePayload c.toJson s.toJson =
      Json.obj [("cliente", c.toJson), ("salud_cartera", s.toJson)] ∧
    (invokePayload c.toJson s.toJson).find "cliente" = some c.toJson ∧
    (invokePayload c.toJson s.toJson).find "salud_cartera" = some s.toJson ∧
    Cliente.ofJson c.toJson = some c ∧
    SaludCartera.ofJson s.toJson = some s :=
  ⟨rfl, rfl, rfl, rfl, rfl⟩

/-- C2 counterexample: a response whose object carries `score_ml` but no
`decision` key renders the "Score ML" metric *and then* the inline error:
the exception is caught and surfaced, but a score metric has already been
rendered, contrary to the claim. -/
theorem individual_error_partial_render_cex :
    tab1Run (.ok (Json.obj [("score_ml", Json.num (7 / 10))])) =
      [Event.metric "Score ML" (Json.num (7 / 10)),
       Event.error "Error: KeyError: decision"] ∧
    Event.metric "Score ML" (Json.num (7 / 10)) ∈
      tab1Run (.ok (Json.obj [("score_ml", Json.num (7 / 10))])) := by
  have h : tab1Run (.ok (Json.obj [("score_ml", Json.num (7 / 10))])) =
      [Event.metric "Score ML" (Json.num (7 / 10)),
       Event.error "Error: KeyError: decision"] := rfl
  exact ⟨h, by rw [h]; exact List.mem_cons_self _ _⟩

/-- Helper: `noErr` passes to `dropLast`. -/
theorem noErr_dropLast {es : List Event} (h : noErr es = true) :
    noErr es.dropLast = true := by
  simp only [noErr, List.all_eq_true] at h ⊢
  exact fun a ha => h a (List.dropLast_subset es ha)

/-- Helper: each statement of the individual tab contributes no error events
when it completes (errors come only from the `except` arm). -/
theorem tab1Steps_ok_no_error :
    ∀ f ∈ tab1Steps, ∀ (r : Json) (es : List Event),
      f r = .ok es → noErr es = true := by
  intro f hf r es h
  simp only [tab1Steps, List.mem_cons, List.not_mem_nil, or_false] at hf
  rcases hf with hf | hf | hf | hf | hf | hf <;> subst hf
  · unfold stepScoreML at h
    repeat' split at h
    all_goals
      first
        | (injection h with h; subst h; simp [noErr, Event.isErr])
        | injection h
  · unfold stepDecisionLabel at h
    repeat' split at h
    all_goals
      first
        | (injection h with h; subst h; simp [noErr, Event.isErr])
        | injection h
  · unfold stepScoreFinal at h
    repeat' split at h
    all_goals
      first
        | (injection h with h; subst h; simp [noErr, Event.isErr])
        | injection h
  · unfold stepSubheader at h
    repeat' split at h
    all_goals
      first
        | (injection h with h; subst h; simp [noErr, Event.isErr])
        | injection h
  · unfold stepJustificacion at h
    repeat' split at h
    all_goals
      first
        | (injection h with h; subst h; simp [noErr, Event.isErr])
        | injection h
  · unfold stepRecomendaciones at h
    repeat' split at h
    all_goals
      first
        | (injection h with h; subst h; simp [noErr, Event.isErr])
        | injection h

/-- Helper: a `try:` block whose completed statements render no error events
shows at most one error event, and only as its final rendered element. -/
theorem runRender_err_shape (fs : List (Json → Except String (List Event)))
    (r : Json)
    (hfs : ∀ f ∈ fs, ∀ es, f r = .ok es → noErr es = true) :
    errCount (runRender fs r) ≤ 1 ∧ noErr (runRender fs r).dropLast = true := by
  induction fs with
  | nil => simp [runRender, errCount, noErr]
  | cons f fs ih =>
    have hf := hfs f (List.mem_cons_self _ _)
    have ih2 := ih (fun g hg es hge => hfs g (List.mem_cons_of_mem _ hg) es hge)
    cases hfr : f r with
    | error m => simp [runRender, hfr, errCount, noErr, Event.isErr]
    | ok es =>
      have hes := hf es hfr
      have hfilter : es.filter Event.isErr = [] := by
        rw [List.filter_eq_nil_iff]
        intro a ha
        have := (List.all_eq_true.mp hes) a ha
        simpa using this
      constructor
      · have hsplit : errCount (runRender (f :: fs) r)
            = errCount es + errCount (runRender fs r) := by
          simp [runRender, hfr, errCount, List.filter_append]
        rw [hsplit, show errCount es = 0 by simp [errCount, hfilter]]
        simpa using ih2.1
      · cases hrr : runRender fs r with
        | nil =>
          have hout : runRender (f :: fs) r = es := by
            simp [runRender, hfr, hrr]
          rw [hout]
          exact noErr_dropLast hes
        | cons e es' =>
          have hout : runRender (f :: fs) r = es ++ (e :: es') := by
            simp [runRender, hfr, hrr]
          rw [hout, List.dropLast_append_of_ne_nil _ (by simp)]
          have h2 := ih2.2
          rw [hrr] at h2
          simp only [noErr, List.all_append] at hes h2 ⊢
          simp [hes, h2]

/-- C2 amended: every exception raised during the remote call or during
rendering of the response fields is caught and surfaced as an inline error
message containing the exception text; at most one error message is shown and
it is the last element rendered, so no field is rendered after the failure
point — but fields already rendered before the exception remain.  When the
remote call itself fails, the error message is the only output. -/
theorem individual_error_handling (m : String) (r : Json) :
    tab1Run (.error m) = [Event.error ("Error: " ++ m)] ∧
    errCount (tab1Run (.ok r)) ≤ 1 ∧
    noErr (tab1Run (.ok r)).dropLast = true := by
  have h := runRender_err_shape tab1Steps r
    (fun f hf es hfe => tab1Steps_ok_no_error f hf r es hfe)
  exact ⟨rfl, h.1, h.2⟩

/-- C4: with the response's `decision` object in hand, the optional
`score_final` is rendered as the literal `"N/A"` when absent and as its value
when present, and the `recomendaciones` box is rendered exactly when that key
is present; absence of either key is not a failure (both statements complete
normally). -/
theorem optional_fields_rendering (r : Json) (kvs : List (String × Json))
    (h : r.getKey "decision" = .ok (.obj kvs)) :
    stepScoreFinal r = .ok [.metric "Score Final"
        ((Json.alistFind "score_final" kvs).getD (.str "N/A"))] ∧
    (Json.alistFind "score_final" kvs = none →
      stepScoreFinal r = .ok [.metric "Score Final" (.str "N/A")]) ∧
    (∀ v, Json.alistFind "score_final" kvs = some v →
      stepScoreFinal r = .ok [.metric "Score Final" v]) ∧
    stepRecomendaciones r
      = .ok ((Json.alistFind "recomendaciones" kvs).toList.map Event.info) ∧
    (Json.alistFind "recomendaciones" kvs = none →
      stepRecomendaciones r = .ok []) ∧
    (∀ v, Json.alistFind "recomendaciones" kvs = some v →
      stepRecomendaciones r = .ok [Event.info v]) := by
  have h1 : stepScoreFinal r = .ok [.metric "Score Final"
      ((Json.alistFind "score_final" kvs).getD (.str "N/A"))] := by
    unfold stepScoreFinal
    rw [h]
  have h2 : stepRecomendaciones r
      = .ok ((Json.alistFind "recomendaciones" kvs).toList.map Event.info) := by
    unfold stepRecomendaciones
    rw [h]
    rcases halist : Json.alistFind "recomendaciones" kvs with _ | v <;>
      simp [halist]
  refine ⟨h1, ?_, ?_, h2, ?_, ?_⟩
  · intro hn; rw [h1, hn]; rfl
  · intro v hv; rw [h1, hv]; rfl
  · intro hn; rw [h2, hn]; rfl
  · intro v hv; rw [h2, hv]; rfl

/-- Witness for `optional_fields_rendering` at a concrete response whose
decision object has neither optional key. -/
theorem optional_fields_rendering_witness :
    stepScoreFinal (Json.obj [("decision", Json.obj [])])
      = .ok [.metric "Score Final" (.str "N/A")] ∧
    stepRecomendaciones (Json.obj [("decision", Json.obj [])]) = .ok [] := by
  have h := optional_fields_rendering (Json.obj [("decision", Json.obj [])]) [] rfl
  exact ⟨h.2.1 rfl, h.2.2.2.2.1 rfl⟩

/-- Helper: full characterization of the simulation loop by index: rows are
the successful outcomes in order, warnings the failed ones, the progress bar
and call trace advance on every item. -/
theorem runSimLoop_spec (agent : ℕ → Except String Json) (cs : ℕ → ClienteSim)
    (den : ℕ) (m : ℕ) :
    (runSimLoop agent cs den m).rows
      = (List.range m).filterMap (fun i => exceptToOption (itemOutcome agent cs i)) ∧
    (runSimLoop agent cs den m).warnings
      = (List.range m).filterMap (fun i =>
          match itemOutcome agent cs i with
          | .error e => some (warnMsg (i + 1) e)
          | .ok _ => none) ∧
    (runSimLoop agent cs den m).progress
      = (List.range m).map (fun i => ((i : ℚ) + 1) / (den : ℚ)) ∧
    (runSimLoop agent cs den m).calls
      = (List.range m).map (fun i => i + 1) := by
  induction m with
  | zero => simp [runSimLoop]
  | succ n ih =>
    obtain ⟨h1, h2, h3, h4⟩ := ih
    cases hio : itemOutcome agent cs n with
    | ok row =>
      simp [runSimLoop, hio, List.range_succ, h1, h2, h3, h4, exceptToOption]
    | error e =>
      simp [runSimLoop, hio, List.range_succ, h1, h2, h3, h4, exceptToOption]

/-- C3: in batch simulation mode, the accumulated rows are exactly the
successful items in index order (a failed item contributes no row and stops
nothing after it), every failed item is reported as a warning naming client
`i+1` with the exception text, and the progress bar advances once per item
whether it failed or not. -/
theorem sim_item_failure_isolated (agent : ℕ → Except String Json)
    (cs : ℕ → ClienteSim) (n : ℕ) :
    (simulate agent cs n).rows
      = (List.range n).filterMap (fun i => exceptToOption (itemOutcome agent cs i)) ∧
    (simulate agent cs n).warnings
      = (List.range n).filterMap (fun i =>
          match itemOutcome agent cs i with
          | .error e => some (warnMsg (i + 1) e)
          | .ok _ => none) ∧
    (simulate agent cs n).progress
      = (List.range n).map (fun i => ((i : ℚ) + 1) / (n : ℚ)) :=
  ⟨(runSimLoop_spec agent cs n n).1, (runSimLoop_spec agent cs n n).2.1,
   (runSimLoop_spec agent cs n n).2.2.1⟩

/-- C6: one simulation run with `n_clientes = n` (the slider keeps
`10 ≤ n ≤ 100`) issues exactly `n` remote calls, one per synthesized
applicant, sequentially in index order `1 .. n`, and the loop ends after the
`n`-th item. -/
theorem sim_call_count (agent : ℕ → Except String Json) (cs : ℕ → ClienteSim)
    (n : ℕ) (hlo : 10 ≤ n) (hhi : n ≤ 100) :
    (simulate agent cs n).calls = (List.range n).map (fun i => i + 1) ∧
    (simulate agent cs n).calls.length = n := by
  unfold simulate
  have h := (runSimLoop_spec agent cs n n).2.2.2
  exact ⟨h, by rw [h]; simp⟩

/-- Witness for `sim_call_count` at `n = 10` with a failing oracle. -/
theorem sim_call_count_witness :
    (simulate agentW csW 10).calls = (List.range 10).map (fun i => i + 1) ∧
    (simulate agentW csW 10).calls.length = 10 :=
  sim_call_count agentW csW 10 (by norm_num) (by norm_num)

/-- C7: the aggregate block renders exactly when at least one item
succeeded; then "Total Evaluados" is the number of accumulated (successful)
rows, "Aprobados" counts rows whose decision is the string `"APROBADO"`, the
displayed percentage is that count over the row count times 100, and the
average score is the mean of `score_ml` over the accumulated rows only. -/
theorem sim_aggregates_spec (rows : List Row) (qs : List ℚ)
    (hne : rows ≠ []) (hq : scoreNums rows = some qs) :
    (∀ rs : List Row, (aggregates rs).isSome = true ↔ rs ≠ []) ∧
    aggregates rows = some
      ⟨rows.length, (rows.filter rowApproved).length,
       ((rows.filter rowApproved).length : ℚ) / (rows.length : ℚ) * 100,
       some (qs.sum / (rows.length : ℚ))⟩ := by
  constructor
  · intro rs; cases rs <;> simp [aggregates]
  · cases rows with
    | nil => exact absurd rfl hne
    | cons a t => simp [aggregates, hq]

/-- Witness for `sim_aggregates_spec` on two concrete rows. -/
theorem sim_aggregates_spec_witness :
    aggregates rowsW = some
      ⟨rowsW.length, (rowsW.filter rowApproved).length,
       ((rowsW.filter rowApproved).length : ℚ) / (rowsW.length : ℚ) * 100,
       some (([7 / 10, 3 / 10] : List ℚ).sum / (rowsW.length : ℚ))⟩ :=
  (sim_aggregates_spec rowsW [7 / 10, 3 / 10] (by simp [rowsW]) rfl).2

/-- C5: every record submitted to the agent satisfies the data-model
bounds.  For the individual form the widgets enforce their declared ranges
(hypotheses `hedad`–`hobj`), and the default rate is the percent slider value
divided by 100, hence in `[0, 0.2]`; for the simulation, the synthesized
applicant is in bounds for every generator state, given the documented ranges
of the raw draws (`unitDraw` in `[0,1)`, gamma draws nonnegative, lognormal
draws positive). -/
theorem record_bounds
    (edad ingresos estabilidad ratio capital sliderPct objetivo : ℚ)
    (rng : RNG σ) (t : σ)
    (hedad : 18 ≤ edad ∧ edad ≤ 80)
    (hing : 0 ≤ ingresos) (hest : 0 ≤ estabilidad)
    (hratio : 0 ≤ ratio ∧ ratio ≤ 1)
    (hcap : 0 ≤ capital)
    (hslider : 0 ≤ sliderPct ∧ sliderPct ≤ 20)
    (hobj : 0 ≤ objetivo)
    (hunit : ∀ u : σ, 0 ≤ (rng.unitDraw u).1 ∧ (rng.unitDraw u).1 < 1)
    (hgamma : ∀ (a : ℚ) (u : σ), 0 ≤ (rng.gammaDraw a u).1)
    (hlog : ∀ (mu sd : ℚ) (u : σ), 0 < (rng.lognormal mu sd u).1) :
    ClienteBounds ⟨edad, ingresos, estabilidad, ratio⟩ ∧
    SaludBounds ⟨capital, tasaMoraOf sliderPct, objetivo⟩ ∧
    ClienteSimBounds (genCliente rng t).1 := by
  refine ⟨⟨hedad.1, hedad.2, hing, hest, hratio.1, hratio.2⟩, ?_, ?_⟩
  · refine ⟨hcap, ?_, ?_, hobj⟩
    · exact div_nonneg hslider.1 (by norm_num)
    · rw [tasaMoraOf, div_le_iff₀ (by norm_num : (0 : ℚ) < 100)]
      linarith [hslider.2]
  · simp only [ClienteSimBounds, genCliente, RNG.normal, RNG.uniform,
      RNG.beta, npClip]
    refine ⟨?_, ?_, ?_, ?_, ?_, ?_⟩
    · exact le_min (by norm_num) (le_max_left _ _)
    · exact le_trans (min_le_left _ _) (by norm_num)
    · exact (hlog _ _ _).le
    · have hu := (hunit ((rng.lognormal 10 (1 / 2) (rng.gauss t).2).2)).1
      nlinarith
    · exact div_nonneg (hgamma _ _) (add_nonneg (hgamma _ _) (hgamma _ _))
    · rcases eq_or_lt_of_le
        (add_nonneg (hgamma 2 _) (hgamma 5 _)) with hz | hz
      · rw [← hz, div_zero]; norm_num
      · rw [div_le_one hz]
        exact le_add_of_nonneg_right (hgamma _ _)

/-- Witness for `record_bounds` at the form defaults and the concrete raw
source `rngW`. -/
theorem record_bounds_witness :
    ClienteBounds ⟨35, 50000, 3, 3 / 10⟩ ∧
    SaludBounds ⟨1000000, tasaMoraOf (7 / 2), 500000⟩ ∧
    ClienteSimBounds (genCliente rngW ()).1 :=
  record_bounds 35 50000 3 (3 / 10) 1000000 (7 / 2) 500000 rngW ()
    (by norm_num) (by norm_num) (by norm_num) (by norm_num) (by norm_num)
    (by norm_num) (by norm_num)
    (fun u => by norm_num [rngW])
    (fun a u => by norm_num [rngW])
    (fun mu sd u => by norm_num [rngW])
